import Mathlib

/-!
Shallow embedding of the PostgreSQL-to-MySQL migration tool
(src/src/migrate.ts and the validation module src/unnamed/part_002)
together with theorems settling the frozen claims about its
specification.

JavaScript runtime values flowing through the validation path are
modelled by the inductive type `Value`; machine numbers are modelled by
`Int`/`Nat` (the repository only moves integral counts, ids and epoch
timestamps through the code under scrutiny, so no floating-point
behaviour is relied on).  Host builtins that the code calls but that are
not part of the repository (JSON.parse, JSON.stringify, Date parsing,
string searching, toLowerCase, ToNumber) are modelled by executable
definitions marked `Modelled from the spec:`; every theorem below is
insensitive to the internals of those models.
-/

/-- Runtime value as it appears in a database row: the dynamically typed
values the validator compares (null, undefined, booleans, numbers,
strings, dates carrying an epoch-milliseconds timestamp or `none` for an
Invalid Date, and structured JSON objects as ordered field lists). -/
inductive Value where
  | vNull
  | vUndef
  | vBool (b : Bool)
  | vNum (n : Int)
  | vStr (s : String)
  | vDate (time : Option Int)
  | vObj (fields : List (String × Value))

/-- Database row: the ordered key/value pairs of a fetched record, in
`Object.entries` order. -/
abbrev Row := List (String × Value)

/-! ## Modelled host string/number builtins -/

/-- Modelled from the spec: character-list prefix test used to build the
string-search builtins (`String.prototype.includes`, `endsWith`) that the
source calls but that are host functions absent from src. -/
def charsPrefix : List Char → List Char → Bool
  | [], _ => true
  | _ :: _, [] => false
  | a :: as, b :: bs => decide (a = b) && charsPrefix as bs

/-- Modelled from the spec: `String.prototype.includes` (host builtin
absent from src), as a substring test on the character list. -/
def charsInfix (sub : List Char) : List Char → Bool
  | [] => sub.isEmpty
  | c :: rest => charsPrefix sub (c :: rest) || charsInfix sub rest

/-- JavaScript `haystack.includes(needle)` on our string model. -/
def jsIncludes (haystack needle : String) : Bool :=
  charsInfix needle.toList haystack.toList

/-- JavaScript `s.endsWith(suffix)` on our string model. -/
def jsEndsWith (s suffixStr : String) : Bool :=
  charsPrefix suffixStr.toList.reverse s.toList.reverse

/-- Modelled from the spec: `String.prototype.toLowerCase` (host builtin
absent from src) on a single ASCII character. -/
def charLower (c : Char) : Char :=
  if c.toNat ≥ 65 ∧ c.toNat ≤ 90 then Char.ofNat (c.toNat + 32) else c

/-- JavaScript `s.toLowerCase()` on our string model. -/
def jsToLower (s : String) : String :=
  String.mk (s.toList.map charLower)

/-- Decimal digit value of a character, `none` for non-digits. -/
def digitVal (c : Char) : Option Nat :=
  if c.toNat ≥ 48 ∧ c.toNat ≤ 57 then some (c.toNat - 48) else none

/-- Accumulating decimal parser over a character list; fails on the
first non-digit, fails on the empty list. -/
def parseDigits : List Char → Option Nat → Option Nat
  | [], acc => acc
  | c :: cs, acc =>
    match digitVal c, acc with
    | some d, some n => parseDigits cs (some (n * 10 + d))
    | some d, none => parseDigits cs (some d)
    | none, _ => none

/-- Modelled from the spec: the ECMAScript ToNumber coercion on strings
(a host conversion absent from src), restricted to optionally signed
decimal integer numerals; the empty or all-space string converts to 0 and
anything unparseable to NaN, rendered here as `none`. -/
def jsStringToNumber (s : String) : Option Int :=
  let cs := ((s.toList.dropWhile fun c => decide (c = ' ')).reverse.dropWhile
      fun c => decide (c = ' ')).reverse
  match cs with
  | [] => some 0
  | '-' :: rest => (parseDigits rest none).map fun n => -(n : Int)
  | _ => (parseDigits cs none).map fun n => (n : Int)

/-- Modelled from the spec: `new Date(string)` parsing (host builtin
absent from src), simplified to accept signed decimal integer strings as
epoch milliseconds; any other string yields an Invalid Date (`none`).
Every theorem below holds for any choice of this parser. -/
def jsDateParse (s : String) : Option Int :=
  match s.toList with
  | [] => none
  | '-' :: rest => (parseDigits rest none).map fun n => -(n : Int)
  | cs => (parseDigits cs none).map fun n => (n : Int)

/-- Modelled from the spec: `Date.prototype.toISOString` (host builtin
absent from src), simplified to an injective rendering of the epoch
timestamp. Every theorem below is insensitive to its format. -/
def isoString (t : Int) : String :=
  toString t ++ "Z"

/-- Modelled from the spec: `JSON.parse` (host builtin absent from src),
simplified to accept the JSON scalars null, true, false, integer
numerals, and quoted strings; anything else fails (`none`), which the
source maps to its catch branch. The theorems below are insensitive to
the extent of this parser. -/
def jsonParse (s : String) : Option Value :=
  if s = "null" then some .vNull
  else if s = "true" then some (.vBool true)
  else if s = "false" then some (.vBool false)
  else
    match s.toList with
    | '"' :: rest =>
      if rest ≠ [] ∧ rest.getLast? = some '"' then
        some (.vStr (String.mk (rest.dropLast)))
      else none
    | '-' :: rest => (parseDigits rest none).map fun n => .vNum (-(n : Int))
    | cs => (parseDigits cs none).map fun n => .vNum (n : Int)

/-- Quote a string as a JSON literal (escaping elided; the theorems
below only use that this is a function). -/
def jsonQuote (s : String) : String :=
  "\"" ++ s ++ "\""

mutual
/-- Modelled from the spec: `JSON.stringify` (host builtin absent from
src). `none` models the JavaScript result `undefined` for a top-level
undefined; an Invalid Date serialises as null via its toJSON. On our
acyclic values it never throws, matching the only way the source can
reach its catch branches. -/
def jsonStringify : Value → Option String
  | .vNull => some "null"
  | .vUndef => none
  | .vBool b => some (cond b "true" "false")
  | .vNum n => some (toString n)
  | .vStr s => some (jsonQuote s)
  | .vDate none => some "null"
  | .vDate (some t) => some (jsonQuote (isoString t))
  | .vObj fields =>
    some ("\x7b" ++ String.intercalate "," (jsonStringifyFields fields) ++ "\x7d")

/-- Field list serialisation for `jsonStringify`; fields whose value
serialises to undefined are dropped, as JSON.stringify does. -/
def jsonStringifyFields : List (String × Value) → List String
  | [] => []
  | (k, v) :: rest =>
    match jsonStringify v with
    | none => jsonStringifyFields rest
    | some sv => (jsonQuote k ++ ":" ++ sv) :: jsonStringifyFields rest
end

/-! ## Type predicates on values (JavaScript typeof / instanceof) -/

/-- JavaScript `v == null`: true exactly for null and undefined. -/
def isNullish : Value → Bool
  | .vNull => true
  | .vUndef => true
  | _ => false

/-- JavaScript `v === null`. -/
def isNullValue : Value → Bool
  | .vNull => true
  | _ => false

/-- JavaScript `typeof v === "boolean"`. -/
def isBool : Value → Bool
  | .vBool _ => true
  | _ => false

/-- JavaScript `v instanceof Date`. -/
def isDate : Value → Bool
  | .vDate _ => true
  | _ => false

/-- JavaScript `typeof v === "string"`. -/
def isStr : Value → Bool
  | .vStr _ => true
  | _ => false

/-- JavaScript `typeof v === "object"`: true for null, dates and plain
objects (typeof null is "object" in JavaScript). -/
def typeofIsObject : Value → Bool
  | .vNull => true
  | .vDate _ => true
  | .vObj _ => true
  | _ => false

/-- JavaScript strict equality `===` on row values. Primitives compare
by value; objects and dates compare by reference, and since the two
compared values always originate from two distinct query results
(one PostgreSQL row, one MySQL row), reference equality between them is
false, which this model renders by returning false on non-primitives. -/
def strictEq : Value → Value → Bool
  | .vNull, .vNull => true
  | .vUndef, .vUndef => true
  | .vBool a, .vBool b => decide (a = b)
  | .vNum a, .vNum b => decide (a = b)
  | .vStr a, .vStr b => decide (a = b)
  | _, _ => false

/-! ## migrate.ts: the type mapper and the caller-level widening -/

/-- Truthiness of a nullable number, as JavaScript evaluates it in the
conditional expressions of the type map: null and 0 are falsy. -/
def optNumTruthy : Option Nat → Bool
  | none => false
  | some n => decide (n ≠ 0)

/-- Declaration emitted for character varying / varchar in the type map
of `mapPostgresToMysqlType`: `maxLength ? VARCHAR(maxLength) : TEXT`. -/
def varcharDecl (maxLength : Option Nat) : String :=
  match maxLength with
  | some n => if n ≠ 0 then "VARCHAR(" ++ toString n ++ ")" else "TEXT"
  | none => "TEXT"

/-- Declaration emitted for decimal / numeric in the type map of
`mapPostgresToMysqlType`:
`precision && scale ? DECIMAL(precision,scale) : DECIMAL(10,2)`. -/
def decimalDecl (precision scale : Option Nat) : String :=
  match precision, scale with
  | some p, some s =>
    if p ≠ 0 ∧ s ≠ 0 then "DECIMAL(" ++ toString p ++ "," ++ toString s ++ ")"
    else "DECIMAL(10,2)"
  | _, _ => "DECIMAL(10,2)"

/-- Lookup in the literal `typeMap` object of `mapPostgresToMysqlType`
(src/src/migrate.ts lines 54 to 74); `none` models an absent key. -/
def typeMapLookup (pgType : String) (maxLength precision scale : Option Nat) :
    Option String :=
  if pgType = "bigint" then some "BIGINT"
  else if pgType = "integer" then some "BIGINT"
  else if pgType = "smallint" then some "SMALLINT"
  else if pgType = "boolean" then some "BOOLEAN"
  else if pgType = "text" then some "TEXT"
  else if pgType = "character varying" then some (varcharDecl maxLength)
  else if pgType = "varchar" then some (varcharDecl maxLength)
  else if pgType = "timestamp without time zone" then some "DATETIME"
  else if pgType = "timestamp with time zone" then some "DATETIME"
  else if pgType = "date" then some "DATE"
  else if pgType = "time" then some "TIME"
  else if pgType = "decimal" then some (decimalDecl precision scale)
  else if pgType = "numeric" then some (decimalDecl precision scale)
  else if pgType = "real" then some "FLOAT"
  else if pgType = "double precision" then some "DOUBLE"
  else if pgType = "json" then some "JSON"
  else if pgType = "jsonb" then some "JSON"
  else if pgType = "uuid" then some "VARCHAR(36)"
  else if pgType = "bytea" then some "LONGBLOB"
  else none

/-- Key set of the literal translation table. -/
def typeMapKeys : List String :=
  ["bigint", "integer", "smallint", "boolean", "text", "character varying",
   "varchar", "timestamp without time zone", "timestamp with time zone",
   "date", "time", "decimal", "numeric", "real", "double precision",
   "json", "jsonb", "uuid", "bytea"]

/-- mapPostgresToMysqlType (src/src/migrate.ts lines 48 to 77):
`return typeMap[pgType] || "TEXT"` — the JavaScript `||` falls back both
for an absent key (undefined) and for an empty-string value. -/
def mapPostgresToMysqlType (pgType : String)
    (maxLength precision scale : Option Nat) : String :=
  match typeMapLookup pgType maxLength precision scale with
  | none => "TEXT"
  | some s => if s = "" then "TEXT" else s

/-- Caller-level widening policy in createMysqlSchema
(src/src/migrate.ts lines 152 to 157): for columns named id or ending in
_id, an INT / INTEGER declaration is replaced by BIGINT. -/
def widenIdColumn (columnName mysqlType : String) : String :=
  if (columnName = "id" ∨ jsEndsWith columnName "_id" = true)
      ∧ (mysqlType = "INT" ∨ mysqlType = "INTEGER") then "BIGINT"
  else mysqlType

/-! ## Validation module (src/unnamed/part_002): value normalisation -/

/-- normalizeValue (part_002 lines 86 to 124): reshapes the target-side
(MySQL) value toward the representation of the source-side (PostgreSQL)
reference value before comparison. The branch order mirrors the source:
nullish pass-through, boolean coercion by strict equality against 1 and
true, date parsing of strings, JSON parsing of a string against an
object reference, and the inverse string/object rule that parses the
reference instead. -/
def normalizeValue (value referenceValue : Value) : Value :=
  if isNullish value || isNullish referenceValue then value
  else if isBool referenceValue then
    .vBool (strictEq value (.vNum 1) || strictEq value (.vBool true))
  else if isDate referenceValue then
    match value with
    | .vStr s => .vDate (jsDateParse s)
    | _ => value
  else if typeofIsObject referenceValue && isStr value then
    match value with
    | .vStr s =>
      match jsonParse s with
      | some v => v
      | none => value
    | _ => value
  else if isStr referenceValue && typeofIsObject value then
    match referenceValue with
    | .vStr s =>
      match jsonParse s with
      | some v => v
      | none => referenceValue
    | _ => referenceValue
  else value

/-! ## Validation module: value equivalence comparators -/

/-- areDatesEqual (part_002 lines 126 to 134): both values must be
dates; Invalid Dates (NaN timestamps) make the tolerance test false, as
NaN comparisons do in the source. -/
def areDatesEqual (value1 value2 : Value) : Bool :=
  match value1, value2 with
  | .vDate (some t1), .vDate (some t2) => decide ((t1 - t2).natAbs ≤ 86400000)
  | _, _ => false

/-- areObjectsEqual (part_002 lines 136 to 146): both values must be
non-null object-typed; equality of their JSON serialisations. -/
def areObjectsEqual (value1 value2 : Value) : Bool :=
  if !typeofIsObject value1 || !typeofIsObject value2
      || isNullValue value1 || isNullValue value2 then false
  else decide (jsonStringify value1 = jsonStringify value2)

/-- areTimestampStringsEqual (part_002 lines 148 to 170): both values
must be strings, the column name must contain the substring _at or date,
both strings must parse to valid dates, and the 24 hour tolerance is
applied to the parsed timestamps. -/
def areTimestampStringsEqual (value1 value2 : Value) (columnName : String) :
    Bool :=
  match value1, value2 with
  | .vStr s1, .vStr s2 =>
    if !jsIncludes columnName "_at" && !jsIncludes columnName "date" then false
    else
      match jsDateParse s1, jsDateParse s2 with
      | some t1, some t2 => decide ((t1 - t2).natAbs ≤ 86400000)
      | _, _ => false
  | _, _ => false

/-- areValuesEqual (part_002 lines 172 to 197): the decision cascade,
each rule returning true immediately when it fires. -/
def areValuesEqual (value1 value2 : Value) (columnName : String) : Bool :=
  if strictEq value1 value2 then true
  else if isNullish value1 && isNullish value2 then true
  else if areDatesEqual value1 value2 then true
  else if areObjectsEqual value1 value2 then true
  else if areTimestampStringsEqual value1 value2 columnName then true
  else false

/-- formatValueForDisplay (part_002 lines 199 to 210). -/
def formatValueForDisplay : Value → String
  | .vNull => "null"
  | .vUndef => "null"
  | .vDate (some t) => isoString t
  | .vDate none => "Invalid Date"
  | .vObj fields => (jsonStringify (.vObj fields)).getD "undefined"
  | .vBool b => cond b "true" "false"
  | .vNum n => toString n
  | .vStr s => s

/-! ## Validation module: sampled row comparison -/

/-- One mismatch message emitted by compareRowData: the source logs the
table, column, row id and the two displayed values. -/
structure MismatchLog where
  table : String
  column : String
  rowId : Value
  pgDisplay : String
  mysqlDisplay : String

/-- JavaScript property access `row[key]`: undefined when absent. -/
def rowIndex (row : Row) (key : String) : Value :=
  match row with
  | [] => .vUndef
  | (k, v) :: rest => if k = key then v else rowIndex rest key

/-- Column loop of compareRowData (part_002 lines 212 to 228), with the
row id of the full source row threaded through for the mismatch
message; returns the row verdict and the mismatch messages logged, which
the source cuts off at the first unequal column by returning false. -/
def compareRowDataGo (tableName : String) (rowId : Value) (mysqlRow : Row) :
    List (String × Value) → Bool × List MismatchLog
  | [] => (true, [])
  | (key, pgValue) :: rest =>
    let mysqlValue := rowIndex mysqlRow key
    let normalizedMysqlValue := normalizeValue mysqlValue pgValue
    if areValuesEqual pgValue normalizedMysqlValue key then
      compareRowDataGo tableName rowId mysqlRow rest
    else
      (false, [⟨tableName, key, rowId, formatValueForDisplay pgValue,
                formatValueForDisplay normalizedMysqlValue⟩])

/-- compareRowData (part_002 lines 212 to 228). -/
def compareRowData (pgRow mysqlRow : Row) (tableName : String) :
    Bool × List MismatchLog :=
  compareRowDataGo tableName (rowIndex pgRow "id") mysqlRow pgRow

/-- Row loop of sampleDataValidation (part_002 lines 251 to 263): rows
paired positionally; a missing MySQL row returns false immediately, and
a failed row comparison returns false immediately, both cutting off the
remaining rows of the table. The second component collects the mismatch
messages logged along the way. -/
def validateSampleRows (tableName : String) :
    List Row → List Row → Bool × List MismatchLog
  | [], _ => (true, [])
  | pgRow :: pgRest, mysqlRows =>
    match mysqlRows with
    | [] => (false, [])
    | mysqlRow :: myRest =>
      let r := compareRowData pgRow mysqlRow tableName
      if r.1 then
        let rest := validateSampleRows tableName pgRest myRest
        (rest.1, r.2 ++ rest.2)
      else (false, r.2)

/-- Sample-data phase of runValidation (part_002 lines 533 to 539): the
first five tables with data are each validated and every one of them
receives a result entry, regardless of earlier outcomes. `fetchRows`
supplies the PostgreSQL sample and the corresponding MySQL rows for a
table. -/
def sampleValidationPhase (fetchRows : String → List Row × List Row)
    (tablesWithData : List String) : List (String × Bool) :=
  (tablesWithData.take 5).map fun t =>
    (t, (validateSampleRows t (fetchRows t).1 (fetchRows t).2).1)

/-! ## Validation module: schema diff -/

/-- Status values of SchemaValidationResult, as in
src/src/types/validate.type.ts. -/
inductive SchemaStatus where
  | ok
  | table_missing
  | column_missing
  | error
deriving DecidableEq, Repr

/-- SchemaValidationResult record pushed by the schema validators. -/
structure SchemaValidationResult where
  table : String
  status : SchemaStatus
  issue : Option String
deriving DecidableEq, Repr

/-- Outcome of the two per-table metadata queries issued by
validateTableSchema: either a thrown error (caught by the source), or
the fetched PostgreSQL and MySQL column name lists. Only the column
names are consulted by the source logic (data type and nullability are
fetched but unused). -/
inductive SchemaFetch where
  | fetchError (msg : String)
  | fetched (pgColumns : List String) (mysqlColumns : List String)

/-- validateTableSchema (part_002 lines 385 to 455): pushes its entries
onto the results accumulator exactly as the source mutates the shared
results array, and returns the hasIssues flag. An empty MySQL column
list yields the table_missing entry; otherwise each PostgreSQL column
with no case-insensitive name match yields one column_missing entry; a
thrown metadata query error is caught into one error entry. -/
def validateTableSchema (fetch : String → SchemaFetch) (tableName : String)
    (results : List SchemaValidationResult) :
    List SchemaValidationResult × Bool :=
  match fetch tableName with
  | .fetchError msg =>
    (results ++ [⟨tableName, .error, some ("Schema validation error: " ++ msg)⟩],
     true)
  | .fetched pgColumns mysqlColumns =>
    if mysqlColumns.isEmpty then
      (results ++ [⟨tableName, .table_missing,
          some ("Table " ++ tableName ++ " not found in MySQL")⟩], true)
    else
      let missing := pgColumns.filter fun c =>
        !(mysqlColumns.any fun m => decide (jsToLower m = jsToLower c))
      (results ++ missing.map fun c =>
        (⟨tableName, .column_missing,
          some ("Column " ++ c ++ " not found in MySQL")⟩ :
          SchemaValidationResult),
       !missing.isEmpty)

/-- Loop of validateCommonTables (part_002 lines 457 to 482) with the
shared results array made explicit; after each table, an ok entry is
pushed when the table had no issues. The catch in the source loop is
unreachable because validateTableSchema catches every error itself. -/
def validateCommonTablesGo (fetch : String → SchemaFetch) :
    List String → List SchemaValidationResult → List SchemaValidationResult
  | [], results => results
  | t :: rest, results =>
    let r := validateTableSchema fetch t results
    validateCommonTablesGo fetch rest
      (if r.2 then r.1 else r.1 ++ [⟨t, .ok, none⟩])

/-- validateCommonTables (part_002 lines 457 to 482). -/
def validateCommonTables (fetch : String → SchemaFetch)
    (common : List String) : List SchemaValidationResult :=
  validateCommonTablesGo fetch common []

/-- Common-table selection of validateSchema (part_002 line 493): the
PostgreSQL table list filtered to the names present in MySQL. The source
builds Set objects first; table names from information_schema are
already distinct, so list filtering is equivalent. -/
def commonTableList (pgTables mysqlTables : List String) : List String :=
  pgTables.filter fun t => decide (t ∈ mysqlTables)

/-- Missing-table selection of validateSchema (part_002 line 494). -/
def missingInMySQL (pgTables mysqlTables : List String) : List String :=
  pgTables.filter fun t => decide (t ∉ mysqlTables)

/-- logMissingTables (part_002 lines 376 to 383): the informational
console lines; missing tables are reported here and nowhere else. -/
def logMissingTables (missingTables : List String) : List String :=
  if missingTables.isEmpty then []
  else
    "Tables missing in MySQL (will be skipped in validation):" ::
      missingTables.map fun t => "   • " ++ t

/-- validateSchema (part_002 lines 484 to 501): returns only the
results of diffing the common tables; tables missing in MySQL are
passed to logMissingTables and are excluded from the returned results. -/
def validateSchema (fetch : String → SchemaFetch)
    (pgTables mysqlTables : List String) : List SchemaValidationResult :=
  validateCommonTables fetch (commonTableList pgTables mysqlTables)

/-- Entries contributed by a single table to the validateCommonTables
output: the pushes of validateTableSchema on an empty accumulator plus
the ok entry when the table had no issues. -/
def perTableEntries (fetch : String → SchemaFetch) (t : String) :
    List SchemaValidationResult :=
  if (validateTableSchema fetch t []).2 then (validateTableSchema fetch t []).1
  else (validateTableSchema fetch t []).1 ++ [⟨t, .ok, none⟩]

/-! ## Validation module: row count reconciliation -/

/-- Value recorded in the postgresCount / mysqlCount fields: a number,
or the literal string ERROR that the source records when counting
throws. -/
inductive CountValue where
  | num (n : Nat)
  | errorString
deriving DecidableEq, Repr

/-- TableCountResult record; the source field named match is rendered
here as countsMatch because match is a reserved word in Lean, and the
optional error message field as errMsg. -/
structure TableCountResult where
  table : String
  postgresCount : CountValue
  mysqlCount : CountValue
  countsMatch : Bool
  errMsg : Option String
deriving DecidableEq, Repr

/-- Outcome of the two count queries for one table: both counts, or a
thrown error (caught by the source). -/
inductive CountFetch where
  | counted (pgCount mysqlCount : Nat)
  | countError (msg : String)

/-- validateTableCounts (part_002 lines 13 to 62): one result entry per
table; on success the match flag is exact count equality, on a thrown
count error both counts are recorded as ERROR and match is false. -/
def validateTableCounts (fetch : String → CountFetch) (tables : List String) :
    List TableCountResult :=
  tables.map fun t =>
    match fetch t with
    | .counted pg my => ⟨t, .num pg, .num my, decide (pg = my), none⟩
    | .countError msg => ⟨t, .errorString, .errorString, false, some msg⟩

/-! ## Helper lemmas about the type mapper -/

lemma varcharDecl_ne (ml : Option Nat) :
    varcharDecl ml ≠ "INT" ∧ varcharDecl ml ≠ "INTEGER" ∧ varcharDecl ml ≠ "" := by
  have htext : ("TEXT" : String) ≠ "INT" ∧ ("TEXT" : String) ≠ "INTEGER" ∧
      ("TEXT" : String) ≠ "" := ⟨by decide, by decide, by decide⟩
  cases ml with
  | none => simpa [varcharDecl] using htext
  | some n =>
    by_cases hn : n = 0
    · simpa [varcharDecl, hn] using htext
    · have hv : varcharDecl (some n) = "VARCHAR(" ++ toString n ++ ")" := by
        simp [varcharDecl, hn]
      rw [hv]
      refine ⟨?_, ?_, ?_⟩ <;> intro h <;>
        · have hd := congrArg String.data h
          simp [String.data_append] at hd

lemma decimalDecl_ne (p s : Option Nat) :
    decimalDecl p s ≠ "INT" ∧ decimalDecl p s ≠ "INTEGER" ∧ decimalDecl p s ≠ "" := by
  have hdef : ("DECIMAL(10,2)" : String) ≠ "INT" ∧
      ("DECIMAL(10,2)" : String) ≠ "INTEGER" ∧ ("DECIMAL(10,2)" : String) ≠ "" :=
    ⟨by decide, by decide, by decide⟩
  cases p with
  | none => simpa [decimalDecl] using hdef
  | some a =>
    cases s with
    | none => simpa [decimalDecl] using hdef
    | some b =>
      by_cases hab : a ≠ 0 ∧ b ≠ 0
      · have hv : decimalDecl (some a) (some b) =
            "DECIMAL(" ++ toString a ++ "," ++ toString b ++ ")" := by
          simp [decimalDecl, hab.1, hab.2]
        rw [hv]
        refine ⟨?_, ?_, ?_⟩ <;> intro h <;>
          · have hd := congrArg String.data h
            simp [String.data_append] at hd
      · have hv : decimalDecl (some a) (some b) = "DECIMAL(10,2)" := by
          simp [decimalDecl, hab]
        rw [hv]
        exact hdef

lemma typeMapLookup_range (pgType : String) (ml p s : Option Nat) (str : String)
    (h : typeMapLookup pgType ml p s = some str) :
    str = "BIGINT" ∨ str = "SMALLINT" ∨ str = "BOOLEAN" ∨ str = "TEXT" ∨
    str = varcharDecl ml ∨ str = "DATETIME" ∨ str = "DATE" ∨ str = "TIME" ∨
    str = decimalDecl p s ∨ str = "FLOAT" ∨ str = "DOUBLE" ∨ str = "JSON" ∨
    str = "VARCHAR(36)" ∨ str = "LONGBLOB" := by
  unfold typeMapLookup at h
  by_cases h1 : pgType = "bigint"
  · rw [if_pos h1] at h
    injection h with h2
    subst h2
    simp only [eq_self_iff_true, true_or, or_true]
  rw [if_neg h1] at h
  by_cases h2 : pgType = "integer"
  · rw [if_pos h2] at h
    injection h with h2
    subst h2
    simp only [eq_self_iff_true, true_or, or_true]
  rw [if_neg h2] at h
  by_cases h3 : pgType = "smallint"
  · rw [if_pos h3] at h
    injection h with h2
    subst h2
    simp only [eq_self_iff_true, true_or, or_true]
  rw [if_neg h3] at h
  by_cases h4 : pgType = "boolean"
  · rw [if_pos h4] at h
    injection h with h2
    subst h2
    simp only [eq_self_iff_true, true_or, or_true]
  rw [if_neg h4] at h
  by_cases h5 : pgType = "text"
  · rw [if_pos h5] at h
    injection h with h2
    subst h2
    simp only [eq_self_iff_true, true_or, or_true]
  rw [if_neg h5] at h
  by_cases h6 : pgType = "character varying"
  · rw [if_pos h6] at h
    injection h with h2
    subst h2
    simp only [eq_self_iff_true, true_or, or_true]
  rw [if_neg h6] at h
  by_cases h7 : pgType = "varchar"
  · rw [if_pos h7] at h
    injection h with h2
    subst h2
    simp only [eq_self_iff_true, true_or, or_true]
  rw [if_neg h7] at h
  by_cases h8 : pgType = "timestamp without time zone"
  · rw [if_pos h8] at h
    injection h with h2
    subst h2
    simp only [eq_self_iff_true, true_or, or_true]
  rw [if_neg h8] at h
  by_cases h9 : pgType = "timestamp with time zone"
  · rw [if_pos h9] at h
    injection h with h2
    subst h2
    simp only [eq_self_iff_true, true_or, or_true]
  rw [if_neg h9] at h
  by_cases h10 : pgType = "date"
  · rw [if_pos h10] at h
    injection h with h2
    subst h2
    simp only [eq_self_iff_true, true_or, or_true]
  rw [if_neg h10] at h
  by_cases h11 : pgType = "time"
  · rw [if_pos h11] at h
    injection h with h2
    subst h2
    simp only [eq_self_iff_true, true_or, or_true]
  rw [if_neg h11] at h
  by_cases h12 : pgType = "decimal"
  · rw [if_pos h12] at h
    injection h with h2
    subst h2
    simp only [eq_self_iff_true, true_or, or_true]
  rw [if_neg h12] at h
  by_cases h13 : pgType = "numeric"
  · rw [if_pos h13] at h
    injection h with h2
    subst h2
    simp only [eq_self_iff_true, true_or, or_true]
  rw [if_neg h13] at h
  by_cases h14 : pgType = "real"
  · rw [if_pos h14] at h
    injection h with h2
    subst h2
    simp only [eq_self_iff_true, true_or, or_true]
  rw [if_neg h14] at h
  by_cases h15 : pgType = "double precision"
  · rw [if_pos h15] at h
    injection h with h2
    subst h2
    simp only [eq_self_iff_true, true_or, or_true]
  rw [if_neg h15] at h
  by_cases h16 : pgType = "json"
  · rw [if_pos h16] at h
    injection h with h2
    subst h2
    simp only [eq_self_iff_true, true_or, or_true]
  rw [if_neg h16] at h
  by_cases h17 : pgType = "jsonb"
  · rw [if_pos h17] at h
    injection h with h2
    subst h2
    simp only [eq_self_iff_true, true_or, or_true]
  rw [if_neg h17] at h
  by_cases h18 : pgType = "uuid"
  · rw [if_pos h18] at h
    injection h with h2
    subst h2
    simp only [eq_self_iff_true, true_or, or_true]
  rw [if_neg h18] at h
  by_cases h19 : pgType = "bytea"
  · rw [if_pos h19] at h
    injection h with h2
    subst h2
    simp only [eq_self_iff_true, true_or, or_true]
  rw [if_neg h19] at h
  exact Option.noConfusion h

lemma typeMapLookup_none (pgType : String) (ml p s : Option Nat)
    (h : pgType ∉ typeMapKeys) : typeMapLookup pgType ml p s = none := by
  simp [typeMapKeys] at h
  simp [typeMapLookup, h]

lemma mapType_ne_int (pgType : String) (ml p s : Option Nat) :
    mapPostgresToMysqlType pgType ml p s ≠ "INT" ∧
    mapPostgresToMysqlType pgType ml p s ≠ "INTEGER" := by
  cases hl : typeMapLookup pgType ml p s with
  | none => simp [mapPostgresToMysqlType, hl]
  | some str =>
    by_cases hs : str = ""
    · simp [mapPostgresToMysqlType, hl, hs]
    · have hm : mapPostgresToMysqlType pgType ml p s = str := by
        simp [mapPostgresToMysqlType, hl, hs]
      rw [hm]
      rcases typeMapLookup_range pgType ml p s str hl with
        h | h | h | h | h | h | h | h | h | h | h | h | h | h <;> subst h <;>
        first
        | exact ⟨(varcharDecl_ne ml).1, (varcharDecl_ne ml).2.1⟩
        | exact ⟨(decimalDecl_ne p s).1, (decimalDecl_ne p s).2.1⟩
        | exact ⟨by decide, by decide⟩

/-! ## Claims about the type mapper -/

/-- C1: mapPostgresToMysqlType is total — for every input it returns a
non-empty declaration string, and any nativeType not in the translation
table returns the fallback TEXT. -/
theorem C1_typeMapperTotal (pgType : String) (maxLength precision scale : Option Nat) :
    mapPostgresToMysqlType pgType maxLength precision scale ≠ "" ∧
    (pgType ∉ typeMapKeys →
      mapPostgresToMysqlType pgType maxLength precision scale = "TEXT") := by
  constructor
  · cases hl : typeMapLookup pgType maxLength precision scale with
    | none => simp [mapPostgresToMysqlType, hl]
    | some str =>
      by_cases hs : str = "" <;> simp [mapPostgresToMysqlType, hl, hs]
  · intro hmem
    simp [mapPostgresToMysqlType,
      typeMapLookup_none pgType maxLength precision scale hmem]

/-- Witness for C1 at the unrecognised type name foobar. -/
theorem C1_typeMapperTotal_witness :
    "foobar" ∉ typeMapKeys ∧
    mapPostgresToMysqlType "foobar" none none none ≠ "" ∧
    mapPostgresToMysqlType "foobar" none none none = "TEXT" := by
  have hne : "foobar" ∉ typeMapKeys := by decide
  exact ⟨hne, (C1_typeMapperTotal "foobar" none none none).1,
    (C1_typeMapperTotal "foobar" none none none).2 hne⟩

/-- C4 counterexample: with precision and scale both present (non-null)
but scale equal to 0, the code does not emit DECIMAL(precision,scale);
the JavaScript truthiness test `precision && scale` treats 0 as absent
and falls back to DECIMAL(10,2). -/
theorem C4_decimalBothPresent_cex :
    mapPostgresToMysqlType "numeric" none (some 12) (some 0) = "DECIMAL(10,2)" ∧
    mapPostgresToMysqlType "numeric" none (some 12) (some 0) ≠ "DECIMAL(12,0)" := by
  constructor
  · rfl
  · decide

/-- C4 (amended): for nativeType decimal or numeric the mapper returns
DECIMAL(precision,scale) whenever both precision and scale are present
and nonzero, and returns DECIMAL(10,2) whenever either is absent or
zero. -/
theorem C4_decimalDefaulting (pgType : String)
    (hpg : pgType = "decimal" ∨ pgType = "numeric") (ml p s : Option Nat) :
    (∀ pp ss, p = some pp → s = some ss → pp ≠ 0 → ss ≠ 0 →
      mapPostgresToMysqlType pgType ml p s =
        "DECIMAL(" ++ toString pp ++ "," ++ toString ss ++ ")") ∧
    ((p = none ∨ s = none ∨ p = some 0 ∨ s = some 0) →
      mapPostgresToMysqlType pgType ml p s = "DECIMAL(10,2)") := by
  have hlook : typeMapLookup pgType ml p s = some (decimalDecl p s) := by
    rcases hpg with h | h <;> subst h <;> rfl
  have hne := (decimalDecl_ne p s).2.2
  have hmap : mapPostgresToMysqlType pgType ml p s = decimalDecl p s := by
    simp [mapPostgresToMysqlType, hlook, hne]
  rw [hmap]
  constructor
  · intro pp ss hp hs hpp hss
    subst hp
    subst hs
    simp [decimalDecl, hpp, hss]
  · intro hcase
    rcases hcase with h | h | h | h
    · subst h
      simp [decimalDecl]
    · subst h
      cases p <;> simp [decimalDecl]
    · subst h
      cases s <;> simp [decimalDecl]
    · subst h
      cases p <;> simp [decimalDecl]

/-- Witness for the amended C4: a parameterised and a defaulted case. -/
theorem C4_decimalDefaulting_witness :
    mapPostgresToMysqlType "numeric" none (some 14) (some 3) = "DECIMAL(14,3)" ∧
    mapPostgresToMysqlType "decimal" none none none = "DECIMAL(10,2)" := by
  constructor
  · exact (C4_decimalDefaulting "numeric" (Or.inr rfl) none (some 14) (some 3)).1
      14 3 rfl rfl (by decide) (by decide)
  · exact (C4_decimalDefaulting "decimal" (Or.inl rfl) none none none).2 (Or.inl rfl)

/-- C6 counterexample: the base lookup already maps nativeType integer
to the widened BIGINT declaration, so the claim that the base lookup is
non-widened fails; the caller-level widening is a no-op on it. -/
theorem C6_integerWidening_cex :
    mapPostgresToMysqlType "integer" none none none = "BIGINT" ∧
    widenIdColumn "id" (mapPostgresToMysqlType "integer" none none none) =
      mapPostgresToMysqlType "integer" none none none := by
  constructor <;> rfl

/-- C6 (amended): the id / *_id widening rule is caller-level
post-processing and the base mapper never consults the column name, but
the widening is already baked into the lookup table — integer maps to
BIGINT there — so the post-processing step never changes any mapper
output. -/
theorem C6_wideningPostProcessing (columnName pgType : String)
    (ml p s : Option Nat) :
    widenIdColumn columnName (mapPostgresToMysqlType pgType ml p s) =
      mapPostgresToMysqlType pgType ml p s ∧
    mapPostgresToMysqlType "integer" ml p s = "BIGINT" := by
  constructor
  · have h := mapType_ne_int pgType ml p s
    unfold widenIdColumn
    rw [if_neg]
    intro hcond
    rcases hcond.2 with hc | hc
    · exact h.1 hc
    · exact h.2 hc
  · rfl

/-! ## Helper lemmas about the schema diff -/

lemma validateTableSchema_acc (fetch : String → SchemaFetch) (t : String)
    (acc : List SchemaValidationResult) :
    validateTableSchema fetch t acc =
      (acc ++ (validateTableSchema fetch t []).1,
       (validateTableSchema fetch t []).2) := by
  unfold validateTableSchema
  cases fetch t with
  | fetchError msg => simp
  | fetched pgCols myCols =>
    by_cases he : myCols.isEmpty <;> simp [he]

lemma validateTableSchema_table (fetch : String → SchemaFetch) (t : String) :
    ∀ r ∈ (validateTableSchema fetch t []).1, r.table = t := by
  intro r hr
  unfold validateTableSchema at hr
  rcases hfetch : fetch t with msg | ⟨pg, my⟩ <;> rw [hfetch] at hr
  · simp at hr
    rw [hr]
  · by_cases he : my.isEmpty
    · simp [he] at hr
      rw [hr]
    · simp [he] at hr
      obtain ⟨c, hc, hr2⟩ := hr
      rw [← hr2]

lemma perTableEntries_table (fetch : String → SchemaFetch) (t : String) :
    ∀ r ∈ perTableEntries fetch t, r.table = t := by
  intro r hr
  unfold perTableEntries at hr
  by_cases hf : (validateTableSchema fetch t []).2
  · rw [if_pos hf] at hr
    exact validateTableSchema_table fetch t r hr
  · rw [if_neg hf] at hr
    rcases List.mem_append.mp hr with h | h
    · exact validateTableSchema_table fetch t r h
    · simp at h
      rw [h]

lemma validateCommonTablesGo_acc (fetch : String → SchemaFetch)
    (ts : List String) : ∀ acc, validateCommonTablesGo fetch ts acc =
      acc ++ validateCommonTablesGo fetch ts [] := by
  induction ts with
  | nil =>
    intro acc
    simp [validateCommonTablesGo]
  | cons t rest ih =>
    intro acc
    have h1 : (validateTableSchema fetch t acc).1 =
        acc ++ (validateTableSchema fetch t []).1 := by
      rw [validateTableSchema_acc]
    have h2 : (validateTableSchema fetch t acc).2 =
        (validateTableSchema fetch t []).2 := by
      rw [validateTableSchema_acc]
    simp only [validateCommonTablesGo, h1, h2]
    by_cases hf : (validateTableSchema fetch t []).2
    · rw [if_pos hf, if_pos hf, ih (acc ++ (validateTableSchema fetch t []).1),
        ih ((validateTableSchema fetch t []).1), List.append_assoc]
    · rw [if_neg hf, if_neg hf,
        ih (acc ++ (validateTableSchema fetch t []).1 ++
          ([⟨t, .ok, none⟩] : List SchemaValidationResult)),
        ih ((validateTableSchema fetch t []).1 ++
          ([⟨t, .ok, none⟩] : List SchemaValidationResult))]
      simp [List.append_assoc]

lemma validateCommonTables_cons (fetch : String → SchemaFetch) (t : String)
    (rest : List String) :
    validateCommonTables fetch (t :: rest) =
      perTableEntries fetch t ++ validateCommonTables fetch rest := by
  unfold validateCommonTables perTableEntries
  simp only [validateCommonTablesGo]
  rw [validateCommonTablesGo_acc fetch rest]

lemma validateCommonTables_table (fetch : String → SchemaFetch) :
    ∀ (ts : List String), ∀ r ∈ validateCommonTables fetch ts, r.table ∈ ts := by
  intro ts
  induction ts with
  | nil =>
    intro r hr
    simp [validateCommonTables, validateCommonTablesGo] at hr
  | cons t rest ih =>
    intro r hr
    rw [validateCommonTables_cons] at hr
    rcases List.mem_append.mp hr with h | h
    · rw [perTableEntries_table fetch t r h]
      exact List.mem_cons_self t rest
    · exact List.mem_cons_of_mem t (ih r h)

lemma validateCommonTables_filter_not_mem (fetch : String → SchemaFetch)
    (t : String) (ts : List String) (hnot : t ∉ ts) :
    (validateCommonTables fetch ts).filter (fun r => decide (r.table = t)) = [] := by
  refine List.filter_eq_nil_iff.mpr ?_
  intro r hr hdec
  rw [decide_eq_true_eq] at hdec
  exact hnot (hdec ▸ validateCommonTables_table fetch ts r hr)

lemma validateCommonTables_filter_mem (fetch : String → SchemaFetch)
    (u : String) : ∀ ts : List String, ts.Nodup → u ∈ ts →
      (validateCommonTables fetch ts).filter (fun r => decide (r.table = u)) =
        perTableEntries fetch u := by
  intro ts
  induction ts with
  | nil =>
    intro _ hmem
    simp at hmem
  | cons t rest ih =>
    intro hnd hmem
    rcases List.nodup_cons.mp hnd with ⟨hnotin, hndrest⟩
    rw [validateCommonTables_cons, List.filter_append]
    by_cases heq : u = t
    · subst heq
      have h1 : (perTableEntries fetch u).filter (fun r => decide (r.table = u)) =
          perTableEntries fetch u := by
        refine List.filter_eq_self.mpr ?_
        intro r hr
        rw [decide_eq_true_eq]
        exact perTableEntries_table fetch u r hr
      rw [h1, validateCommonTables_filter_not_mem fetch u rest hnotin,
        List.append_nil]
    · have hmem2 : u ∈ rest := by
        rcases List.mem_cons.mp hmem with h | h
        · exact absurd h heq
        · exact h
      have h0 : (perTableEntries fetch t).filter (fun r => decide (r.table = u)) = [] := by
        refine List.filter_eq_nil_iff.mpr ?_
        intro r hr hdec
        rw [decide_eq_true_eq] at hdec
        exact heq (hdec ▸ perTableEntries_table fetch t r hr)
      rw [h0, List.nil_append]
      exact ih hndrest hmem2

/-! ## Claims about the schema diff -/

/-- Fetch environment for the two-table scenario with source tables A
and B and target table A only: A has one matching column; B is never
queried because it is not a common table. -/
def fetchC2 : String → SchemaFetch := fun t =>
  if t = "A" then .fetched ["id"] ["id"] else .fetchError "unused"

/-- C2 counterexample: with source tables A and B and target tables A
only, the returned result sequence is just the ok entry for A — it
contains no entry for B at all, in particular no table_missing entry,
refuting the claim that the diff result contains a table_missing entry
for B. -/
theorem C2_missingTableEntry_cex :
    validateSchema fetchC2 ["A", "B"] ["A"] =
      [⟨"A", SchemaStatus.ok, none⟩] ∧
    (validateSchema fetchC2 ["A", "B"] ["A"]).all
      (fun r => !(decide (r.table = "B"))) = true := by
  constructor
  · rfl
  · rfl

/-- C2 (amended): a source table with no same-named target table is
excluded from the diff entirely — the returned result sequence contains
no entry for it of any status (hence no column_missing entries either);
it is reported only through the separate informational missing-tables
log. -/
theorem C2_missingTableReporting (fetch : String → SchemaFetch)
    (pgTables mysqlTables : List String) (B : String)
    (hB : B ∈ pgTables) (hnot : B ∉ mysqlTables) :
    (∀ r ∈ validateSchema fetch pgTables mysqlTables, r.table ≠ B) ∧
    B ∈ missingInMySQL pgTables mysqlTables ∧
    ("   • " ++ B) ∈ logMissingTables (missingInMySQL pgTables mysqlTables) := by
  have hBnotcommon : B ∉ commonTableList pgTables mysqlTables := by
    intro hmem
    rcases List.mem_filter.mp hmem with ⟨_, hdec⟩
    rw [decide_eq_true_eq] at hdec
    exact hnot hdec
  have hmm : B ∈ missingInMySQL pgTables mysqlTables :=
    List.mem_filter.mpr ⟨hB, by simpa using hnot⟩
  refine ⟨?_, hmm, ?_⟩
  · intro r hr heq
    unfold validateSchema at hr
    exact hBnotcommon
      (heq ▸ validateCommonTables_table fetch
        (commonTableList pgTables mysqlTables) r hr)
  · have hne : (missingInMySQL pgTables mysqlTables).isEmpty = false := by
      cases hml : missingInMySQL pgTables mysqlTables with
      | nil =>
        rw [hml] at hmm
        simp at hmm
      | cons a l => rfl
    unfold logMissingTables
    rw [if_neg (by simp [hne])]
    exact List.mem_cons_of_mem _ (List.mem_map.mpr ⟨B, hmm, rfl⟩)

/-- Witness for the amended C2 on the concrete A / B scenario. -/
theorem C2_missingTableReporting_witness :
    "B" ∈ missingInMySQL ["A", "B"] ["A"] ∧
    ("   • " ++ "B") ∈ logMissingTables (missingInMySQL ["A", "B"] ["A"]) ∧
    (⟨"A", SchemaStatus.ok, none⟩ : SchemaValidationResult).table ≠ "B" := by
  have h := C2_missingTableReporting fetchC2 ["A", "B"] ["A"] "B"
    (by decide) (by decide)
  exact ⟨h.2.1, h.2.2, h.1 ⟨"A", SchemaStatus.ok, none⟩ (by decide)⟩

/-- C7: a metadata-query failure while diffing one table produces
exactly one result entry, with status error, for that table, and every
other table in the common-table list is still diffed and reported with
exactly its own entries. -/
theorem C7_schemaErrorIsolation (fetch : String → SchemaFetch)
    (tables : List String) (t msg : String)
    (hmem : t ∈ tables) (hnd : tables.Nodup)
    (herr : fetch t = SchemaFetch.fetchError msg) :
    (validateCommonTables fetch tables).filter (fun r => decide (r.table = t)) =
      [⟨t, SchemaStatus.error, some ("Schema validation error: " ++ msg)⟩] ∧
    ∀ u ∈ tables, u ≠ t →
      (validateCommonTables fetch tables).filter (fun r => decide (r.table = u)) =
        perTableEntries fetch u := by
  constructor
  · rw [validateCommonTables_filter_mem fetch t tables hnd hmem]
    simp [perTableEntries, validateTableSchema, herr]
  · intro u hu _
    exact validateCommonTables_filter_mem fetch u tables hnd hu

/-- Fetch environment for the C7 witness: table a fails its metadata
query, table b succeeds with one matching column. -/
def fetchC7 : String → SchemaFetch := fun t =>
  if t = "a" then .fetchError "boom" else .fetched ["id"] ["id"]

/-- Witness for C7: the failing table contributes exactly its error
entry and the other table is still reported. -/
theorem C7_schemaErrorIsolation_witness :
    (validateCommonTables fetchC7 ["a", "b"]).filter
      (fun r => decide (r.table = "a")) =
      [⟨"a", SchemaStatus.error, some ("Schema validation error: " ++ "boom")⟩] ∧
    (validateCommonTables fetchC7 ["a", "b"]).filter
      (fun r => decide (r.table = "b")) = perTableEntries fetchC7 "b" := by
  have h := C7_schemaErrorIsolation fetchC7 ["a", "b"] "a" "boom"
    (by decide) (by decide) (by rfl)
  exact ⟨h.1, h.2 "b" (by decide) (by decide)⟩

/-! ## Claims about count reconciliation -/

/-- Error entry recorded by validateTableCounts when counting a table
throws: both counts are the literal ERROR and match is false. -/
def c8ErrEntry : TableCountResult :=
  ⟨"users", CountValue.errorString, CountValue.errorString, false,
   some "connection lost"⟩

/-- C8 counterexample: when counting fails, the recorded source and
target count fields are equal (both hold the literal ERROR) yet the
match field is false, so match is not equivalent to equality of the
recorded fields once the failure case is included. -/
theorem C8_countMatchIff_cex :
    validateTableCounts (fun _ => CountFetch.countError "connection lost")
      ["users"] = [c8ErrEntry] ∧
    c8ErrEntry.postgresCount = c8ErrEntry.mysqlCount ∧
    c8ErrEntry.countsMatch = false :=
  ⟨rfl, rfl, rfl⟩

/-- C8 (amended): in every per-table count result, match is true iff
both counts were actually obtained as numbers and are exactly equal (no
tolerance); when counting fails, match is false even though both
recorded fields hold the literal ERROR. -/
theorem C8_countMatchIff (fetch : String → CountFetch) (tables : List String)
    (r : TableCountResult) (hr : r ∈ validateTableCounts fetch tables) :
    r.countsMatch = true ↔
      ∃ n, r.postgresCount = CountValue.num n ∧
        r.mysqlCount = CountValue.num n := by
  unfold validateTableCounts at hr
  rcases List.mem_map.mp hr with ⟨t, _, hrt⟩
  cases hf : fetch t with
  | counted pg my =>
    rw [hf] at hrt
    subst hrt
    constructor
    · intro hm
      simp only [decide_eq_true_eq] at hm
      exact ⟨pg, rfl, by rw [hm]⟩
    · rintro ⟨n, hpg, hmy⟩
      simp only [CountValue.num.injEq] at hpg hmy
      simp [hpg, hmy]
  | countError msg =>
    rw [hf] at hrt
    subst hrt
    constructor
    · intro hm
      simp at hm
    · rintro ⟨n, hpg, _⟩
      simp at hpg

/-- Witness for the amended C8 on equal counts. -/
theorem C8_countMatchIff_witness :
    (⟨"t", CountValue.num 3, CountValue.num 3, true, none⟩ :
      TableCountResult).countsMatch = true :=
  (C8_countMatchIff (fun _ => CountFetch.counted 3 3) ["t"] _
    (List.mem_singleton.mpr rfl)).mpr ⟨3, rfl, rfl⟩

/-! ## Claims about sampled row comparison -/

/-- C3 counterexample: in a two-row sample where both rows mismatch (in
column x), the run stops at the first failing row — its result is the
first-row mismatch only, although the second row (id 2) has its own
mismatch when compared directly. The claimed continuation across the
remaining sampled rows of the table does not happen. -/
theorem C3_rowContinuation_cex :
    compareRowData [("id", Value.vNum 2), ("x", Value.vNum 2)]
        [("id", Value.vNum 2), ("x", Value.vNum 9)] "t" =
      (false, [⟨"t", "x", Value.vNum 2, "2", "9"⟩]) ∧
    validateSampleRows "t"
        [[("id", Value.vNum 1), ("x", Value.vNum 1)],
         [("id", Value.vNum 2), ("x", Value.vNum 2)]]
        [[("id", Value.vNum 1), ("x", Value.vNum 9)],
         [("id", Value.vNum 2), ("x", Value.vNum 9)]] =
      (false, [⟨"t", "x", Value.vNum 1, "1", "9"⟩]) :=
  ⟨rfl, rfl⟩

/-- C3 (amended): within a table the first unequal column fails the row
and the table's sample comparison stops at the first failing row,
returning false with only that row's mismatch logged; evaluation still
continues across tables — every table in the sampled list receives its
own result entry regardless of earlier outcomes. -/
theorem C3_sampleRowFailFast (tableName : String) (pgRow : Row)
    (pgRest : List Row) (myRow : Row) (myRest : List Row)
    (fetchRows : String → List Row × List Row) (tables : List String)
    (h : (compareRowData pgRow myRow tableName).1 = false) :
    validateSampleRows tableName (pgRow :: pgRest) (myRow :: myRest) =
      (false, (compareRowData pgRow myRow tableName).2) ∧
    (sampleValidationPhase fetchRows tables).map Prod.fst = tables.take 5 := by
  constructor
  · simp only [validateSampleRows]
    rw [if_neg (by simp [h])]
  · unfold sampleValidationPhase
    rw [List.map_map]
    have hcomp : (Prod.fst ∘ fun t =>
        (t, (validateSampleRows t (fetchRows t).1 (fetchRows t).2).1)) =
        (id : String → String) := rfl
    rw [hcomp, List.map_id]

/-- Witness for the amended C3 at a concrete failing row and table
list. -/
theorem C3_sampleRowFailFast_witness :
    validateSampleRows "t"
        [[("id", Value.vNum 1), ("x", Value.vNum 1)]]
        [[("id", Value.vNum 1), ("x", Value.vNum 9)]] =
      (false, (compareRowData [("id", Value.vNum 1), ("x", Value.vNum 1)]
        [("id", Value.vNum 1), ("x", Value.vNum 9)] "t").2) ∧
    (sampleValidationPhase (fun _ => ([], [])) ["t1", "t2"]).map Prod.fst =
      ["t1", "t2"].take 5 :=
  C3_sampleRowFailFast "t" [("id", Value.vNum 1), ("x", Value.vNum 1)] []
    [("id", Value.vNum 1), ("x", Value.vNum 9)] [] (fun _ => ([], []))
    ["t1", "t2"] rfl

/-! ## Claims about the value normalizer -/

/-- Modelled from the spec: JavaScript abstract (loose) equality
`x == 1` as the specification quotes it, following the ECMAScript
coercion rules on our value domain — numbers compare numerically,
booleans coerce to 0 / 1, strings coerce through ToNumber, and null,
undefined, dates and objects are never loosely equal to 1 (their
ToPrimitive forms are non-numeric strings). -/
def jsLooseEqOne : Value → Bool
  | .vNum n => decide (n = 1)
  | .vBool b => decide ((if b then (1 : Int) else 0) = 1)
  | .vStr s =>
    match jsStringToNumber s with
    | some n => decide (n = 1)
    | none => false
  | _ => false

/-- Modelled from the spec: JavaScript loose equality `x == true`; per
ECMAScript a boolean operand is first coerced to a number, so this is
`x == 1`. -/
def jsLooseEqTrue (v : Value) : Bool :=
  jsLooseEqOne v

/-- Modelled from the spec: the boolean coercion rule exactly as the
specification writes it, `targetValue == 1 || targetValue == true`,
with loose equality. -/
def specLooseBooleanRule (v : Value) : Bool :=
  jsLooseEqOne v || jsLooseEqTrue v

/-- C5 counterexample: at the target value "1" (a string) with a
boolean reference, the code returns false (it uses strict equality
`=== 1 || === true`), while the rule quoted by the claim, with loose
equality, gives true — so normalizeValue does not return the boolean
given by that rule. -/
theorem C5_booleanCoercion_cex :
    normalizeValue (Value.vStr "1") (Value.vBool true) = Value.vBool false ∧
    specLooseBooleanRule (Value.vStr "1") = true ∧
    normalizeValue (Value.vStr "1") (Value.vBool true) ≠
      Value.vBool (specLooseBooleanRule (Value.vStr "1")) := by
  refine ⟨rfl, rfl, ?_⟩
  intro h
  injection h with h2
  exact Bool.noConfusion (h2.trans rfl)

/-- C5 (amended): when the reference value is a boolean and the target
value is not nullish, normalizeValue returns the boolean given by the
strict rule `targetValue === 1 || targetValue === true`; numeric 1 and
boolean true normalize to true, numeric 0, boolean false, and any other
value — including the string "1" — normalize to false. -/
theorem C5_booleanCoercionStrict (referenceValue : Value)
    (href : isBool referenceValue = true) :
    (∀ v, isNullish v = false →
      normalizeValue v referenceValue =
        Value.vBool (strictEq v (Value.vNum 1) || strictEq v (Value.vBool true))) ∧
    normalizeValue (Value.vNum 1) referenceValue = Value.vBool true ∧
    normalizeValue (Value.vNum 0) referenceValue = Value.vBool false ∧
    (∀ b, normalizeValue (Value.vBool b) referenceValue = Value.vBool b) ∧
    normalizeValue (Value.vStr "1") referenceValue = Value.vBool false := by
  cases referenceValue with
  | vBool b =>
    refine ⟨?_, rfl, rfl, ?_, rfl⟩
    · intro v hv
      unfold normalizeValue
      rw [if_neg (by rw [hv]; exact fun hcontra => Bool.noConfusion hcontra),
        if_pos (by rfl)]
    · intro c
      cases c <;> rfl
  | vNull => exact absurd href (by simp [isBool])
  | vUndef => exact absurd href (by simp [isBool])
  | vNum n => exact absurd href (by simp [isBool])
  | vStr s => exact absurd href (by simp [isBool])
  | vDate t => exact absurd href (by simp [isBool])
  | vObj f => exact absurd href (by simp [isBool])

/-- Witness for the amended C5 with reference true. -/
theorem C5_booleanCoercionStrict_witness :
    normalizeValue (Value.vNum 1) (Value.vBool true) = Value.vBool true ∧
    normalizeValue (Value.vNum 0) (Value.vBool true) = Value.vBool false ∧
    normalizeValue (Value.vBool false) (Value.vBool true) = Value.vBool false ∧
    normalizeValue (Value.vStr "1") (Value.vBool true) = Value.vBool false := by
  have h := C5_booleanCoercionStrict (Value.vBool true) rfl
  exact ⟨h.2.1, h.2.2.1, h.2.2.2.1 false, h.2.2.2.2⟩

/-! ## Branch lemmas for normalizeValue -/

lemma normalizeValue_nullish (x ref : Value) (hx : isNullish x = true) :
    normalizeValue x ref = x := by
  unfold normalizeValue
  rw [if_pos (by rw [hx]; rfl)]

lemma normalizeValue_boolRef (x : Value) (b : Bool) (hx : isNullish x = false) :
    normalizeValue x (Value.vBool b) =
      Value.vBool (strictEq x (Value.vNum 1) || strictEq x (Value.vBool true)) := by
  unfold normalizeValue
  rw [if_neg (by rw [hx]; exact fun hc => Bool.noConfusion hc), if_pos (by rfl)]

lemma normalizeValue_dateRef_str (s : String) (t : Option Int) :
    normalizeValue (Value.vStr s) (Value.vDate t) = Value.vDate (jsDateParse s) := by
  unfold normalizeValue
  rw [if_neg (fun hc => Bool.noConfusion hc),
    if_neg (fun hc => Bool.noConfusion hc), if_pos (by rfl)]

lemma normalizeValue_dateRef_passthrough (x : Value) (t : Option Int)
    (hx : isNullish x = false) (hs : isStr x = false) :
    normalizeValue x (Value.vDate t) = x := by
  cases x with
  | vNull => simp [isNullish] at hx
  | vUndef => simp [isNullish] at hx
  | vStr s => simp [isStr] at hs
  | vBool b =>
    unfold normalizeValue
    rw [if_neg (fun hc => Bool.noConfusion hc),
      if_neg (fun hc => Bool.noConfusion hc), if_pos (by rfl)]
  | vNum n =>
    unfold normalizeValue
    rw [if_neg (fun hc => Bool.noConfusion hc),
      if_neg (fun hc => Bool.noConfusion hc), if_pos (by rfl)]
  | vDate u =>
    unfold normalizeValue
    rw [if_neg (fun hc => Bool.noConfusion hc),
      if_neg (fun hc => Bool.noConfusion hc), if_pos (by rfl)]
  | vObj f =>
    unfold normalizeValue
    rw [if_neg (fun hc => Bool.noConfusion hc),
      if_neg (fun hc => Bool.noConfusion hc), if_pos (by rfl)]

/-- C9: normalizeValue is idempotent for the boolean and date rules —
applying it twice with a boolean or date reference gives the same
result as applying it once. -/
theorem C9_normalizeIdempotent (x ref : Value)
    (h : isBool ref = true ∨ isDate ref = true) :
    normalizeValue (normalizeValue x ref) ref = normalizeValue x ref := by
  by_cases hx : isNullish x = true
  · rw [normalizeValue_nullish x ref hx, normalizeValue_nullish x ref hx]
  · have hx2 : isNullish x = false := by simpa using hx
    rcases h with hb | hd
    · cases ref with
      | vBool b =>
        rw [normalizeValue_boolRef x b hx2]
        cases hc : (strictEq x (Value.vNum 1) || strictEq x (Value.vBool true))
        · rw [normalizeValue_boolRef (Value.vBool false) b rfl]
          rfl
        · rw [normalizeValue_boolRef (Value.vBool true) b rfl]
          rfl
      | vNull => exact absurd hb (by simp [isBool])
      | vUndef => exact absurd hb (by simp [isBool])
      | vNum n => exact absurd hb (by simp [isBool])
      | vStr s => exact absurd hb (by simp [isBool])
      | vDate t => exact absurd hb (by simp [isBool])
      | vObj f => exact absurd hb (by simp [isBool])
    · cases ref with
      | vDate t =>
        by_cases hstr : isStr x = true
        · cases x with
          | vStr s =>
            rw [normalizeValue_dateRef_str s t]
            exact normalizeValue_dateRef_passthrough
              (Value.vDate (jsDateParse s)) t rfl rfl
          | vNull => simp [isStr] at hstr
          | vUndef => simp [isStr] at hstr
          | vBool b => simp [isStr] at hstr
          | vNum n => simp [isStr] at hstr
          | vDate u => simp [isStr] at hstr
          | vObj f => simp [isStr] at hstr
        · have hstr2 : isStr x = false := by simpa using hstr
          rw [normalizeValue_dateRef_passthrough x t hx2 hstr2,
            normalizeValue_dateRef_passthrough x t hx2 hstr2]
      | vNull => exact absurd hd (by simp [isDate])
      | vUndef => exact absurd hd (by simp [isDate])
      | vNum n => exact absurd hd (by simp [isDate])
      | vStr s => exact absurd hd (by simp [isDate])
      | vBool b => exact absurd hd (by simp [isDate])
      | vObj f => exact absurd hd (by simp [isDate])

/-- Witness for C9 at a boolean reference and at a date reference. -/
theorem C9_normalizeIdempotent_witness :
    normalizeValue (normalizeValue (Value.vNum 1) (Value.vBool true))
        (Value.vBool true) =
      normalizeValue (Value.vNum 1) (Value.vBool true) ∧
    normalizeValue (normalizeValue (Value.vStr "99") (Value.vDate (some 0)))
        (Value.vDate (some 0)) =
      normalizeValue (Value.vStr "99") (Value.vDate (some 0)) :=
  ⟨C9_normalizeIdempotent (Value.vNum 1) (Value.vBool true) (Or.inl rfl),
   C9_normalizeIdempotent (Value.vStr "99") (Value.vDate (some 0)) (Or.inr rfl)⟩

/-! ## Symmetry of the value equivalence comparator -/

lemma strictEq_symm (v1 v2 : Value) : strictEq v1 v2 = strictEq v2 v1 := by
  cases v1 <;> cases v2 <;>
    first
    | rfl
    | exact decide_eq_decide.mpr eq_comm

lemma areDatesEqual_symm (v1 v2 : Value) :
    areDatesEqual v1 v2 = areDatesEqual v2 v1 := by
  cases v1 <;> cases v2 <;>
    first
    | rfl
    | (rename_i t
       cases t <;> rfl)
    | (rename_i t1 t2
       cases t1 <;> cases t2 <;>
         first
         | rfl
         | (rename_i a b
            show decide ((a - b).natAbs ≤ 86400000) =
              decide ((b - a).natAbs ≤ 86400000)
            have h2 : (a - b).natAbs = (b - a).natAbs := by omega
            rw [h2]))

lemma areObjectsEqual_symm (v1 v2 : Value) :
    areObjectsEqual v1 v2 = areObjectsEqual v2 v1 := by
  unfold areObjectsEqual
  by_cases h1 : typeofIsObject v1 <;> by_cases h2 : typeofIsObject v2 <;>
    by_cases h3 : isNullValue v1 <;> by_cases h4 : isNullValue v2 <;>
    simp [h1, h2, h3, h4] <;>
    exact Iff.intro Eq.symm Eq.symm

lemma areTimestampStringsEqual_symm (v1 v2 : Value) (c : String) :
    areTimestampStringsEqual v1 v2 c = areTimestampStringsEqual v2 v1 c := by
  cases v1 <;> cases v2 <;> try rfl
  rename_i s1 s2
  simp only [areTimestampStringsEqual]
  by_cases hcol : (!jsIncludes c "_at" && !jsIncludes c "date") = true
  · rw [if_pos hcol, if_pos hcol]
  · rw [if_neg hcol, if_neg hcol]
    cases jsDateParse s1 <;> cases jsDateParse s2 <;> try rfl
    rename_i a b
    show decide ((a - b).natAbs ≤ 86400000) =
      decide ((b - a).natAbs ≤ 86400000)
    have h : (a - b).natAbs = (b - a).natAbs := by omega
    rw [h]

lemma areValuesEqual_eq_or (v1 v2 : Value) (c : String) :
    areValuesEqual v1 v2 c =
      (strictEq v1 v2 || (isNullish v1 && isNullish v2) ||
       areDatesEqual v1 v2 || areObjectsEqual v1 v2 ||
       areTimestampStringsEqual v1 v2 c) := by
  unfold areValuesEqual
  by_cases h1 : strictEq v1 v2 <;>
    by_cases h2 : (isNullish v1 && isNullish v2) = true <;>
    by_cases h3 : areDatesEqual v1 v2 <;>
    by_cases h4 : areObjectsEqual v1 v2 <;>
    by_cases h5 : areTimestampStringsEqual v1 v2 c <;>
    simp [h1, h2, h3, h4, h5]

/-- C10: the value equivalence comparator is symmetric in its two value
arguments for every column name. -/
theorem C10_comparatorSymmetric (v1 v2 : Value) (columnName : String) :
    areValuesEqual v1 v2 columnName = areValuesEqual v2 v1 columnName := by
  rw [areValuesEqual_eq_or, areValuesEqual_eq_or, strictEq_symm,
    areDatesEqual_symm, areObjectsEqual_symm, areTimestampStringsEqual_symm,
    Bool.and_comm]
